import Mathlib

/-!
Verification development for the Budget Level v2.1 envelope-budgeting app
(`src/app.py`).  The data model and every operation the claims touch are
embedded shallowly: spreadsheet rows become Lean structures, the append-only
Transaction / Wallet_Log sheets become lists, amounts (Python floats produced
by `parse_amount`) become rationals, and calendar dates become integer day
numbers (so Python's `(d1 - d2).days` is plain subtraction).  Fields the
claims never touch (generated ids, timestamps, dates of individual rows) are
omitted; store fallibility is modelled by an explicit `StoreFaults` record
mirroring which `append`/`update` calls raise.
-/

namespace BudgetLevel

/-- Account constant `ACCOUNT_LIVING` from the source. -/
def ACCOUNT_LIVING : String := "Living"

/-- Account constant `ACCOUNT_SAVING` from the source. -/
def ACCOUNT_SAVING : String := "Saving"

/-- Account constant `ACCOUNT_BACKUP` from the source. -/
def ACCOUNT_BACKUP : String := "Back_Up"

/-- Account constant `ACCOUNT_FREEFUND` from the source. -/
def ACCOUNT_FREEFUND : String := "Free_Fund"

/-- Account constant `ACCOUNT_WALLET` from the source. -/
def ACCOUNT_WALLET : String := "Wallet"

/-- Wallet-log type `WALLET_INCOME`. -/
def WALLET_INCOME : String := "Income"

/-- Wallet-log type `WALLET_ALLOCATE_OUT`. -/
def WALLET_ALLOCATE_OUT : String := "Allocate_Out"

/-- Wallet-log type `WALLET_TRANSFER_IN`. -/
def WALLET_TRANSFER_IN : String := "Transfer_In"

/-- Wallet-log type `WALLET_ADJUSTMENT`. -/
def WALLET_ADJUSTMENT : String := "Adjustment"

/-- Transaction type `TYPE_EXPENSE`. -/
def TYPE_EXPENSE : String := "Expense"

/-- Transaction type `TYPE_SAVING_IN`. -/
def TYPE_SAVING_IN : String := "Saving_In"

/-- Transaction type `TYPE_SAVING_OUT`. -/
def TYPE_SAVING_OUT : String := "Saving_Out"

/-- Transaction type `TYPE_SETTLEMENT_IN`. -/
def TYPE_SETTLEMENT_IN : String := "Settlement_In"

/-- Transaction type `TYPE_SETTLEMENT_OUT`. -/
def TYPE_SETTLEMENT_OUT : String := "Settlement_Out"

/-- Transaction type `TYPE_TRANSFER`. -/
def TYPE_TRANSFER : String := "Transfer"

/-- Period status `PERIOD_ACTIVE`. -/
def PERIOD_ACTIVE : String := "Active"

/-- Period status `PERIOD_SETTLED`. -/
def PERIOD_SETTLED : String := "Settled"

/-- One row of the Transaction sheet, in the column order written by
`add_transaction` (`Txn_ID`, `Timestamp` and `Date` are generated from the
clock and never read by any derivation, so they are omitted). -/
structure Txn where
  txn_type : String
  amount : ℚ
  account : String
  category_id : String
  sub_tag_id : String
  goal_id : String
  target_account : String
  item : String
  note : String
  ref : String
  period_id : String
  bank_id : String
  payment_method : String
deriving DecidableEq

/-- One row of the Wallet_Log sheet as written by `add_wallet_log`
(`Log_ID`, `Timestamp`, `Date` omitted as clock-generated). -/
structure WalletLogEntry where
  log_type : String
  amount : ℚ
  bank_id : String
  note : String
  ref : String
deriving DecidableEq

/-- One row of the Period sheet; dates are integer day numbers. -/
structure Period where
  period_id : String
  start_date : ℤ
  end_date : ℤ
  status : String
  living_budget : ℚ
  settled_at : String
deriving DecidableEq

/-- One row of the Settlement_Log sheet, in the column order appended by
`settle_period`. -/
structure SettlementRow where
  settlement_id : String
  period_id : String
  planned_budget : ℚ
  actual_expense : ℚ
  net_result : ℚ
  impact_account : String
  settled_at : String
deriving DecidableEq

/-- One row of the Category sheet (only the columns the claims read). -/
structure Category where
  category_id : String
  name : String
  budget : ℚ
  status : String
deriving DecidableEq

/-- The Config sheet values the balance derivations read. -/
structure Config where
  back_up_initial : ℚ
  free_fund_initial : ℚ
deriving DecidableEq

/-- The whole spreadsheet state: the two append-only logs plus the mutable
sheets. -/
structure State where
  wallet_log : List WalletLogEntry
  transactions : List Txn
  periods : List Period
  settlement_log : List SettlementRow
  categories : List Category
  config : Config
deriving DecidableEq

/-- The dict returned by `settle_period`. -/
structure SettleResult where
  success : Bool
  net_result : ℚ
  settlement_id : String
  message : String
deriving DecidableEq

/-- Which store calls raise (`StoreUnavailable`) during a settlement run:
the compensating `add_transaction`, the Settlement_Log `append_row`, and the
`update_period_status` write.  `add_transaction` and `update_period_status`
catch their own exceptions and return `False` (which `settle_period`
ignores); the Settlement_Log append raises inside `settle_period` itself. -/
structure StoreFaults where
  txn_append_fails : Bool
  settlement_append_fails : Bool
  status_update_fails : Bool
deriving DecidableEq

/-- A fault-free store. -/
def no_store_faults : StoreFaults := ⟨false, false, false⟩

/-- `add_wallet_log(log_type, amount, bank_id, note, ref)`: append one row to
the Wallet_Log sheet. -/
def add_wallet_log (s : State) (log_type : String) (amount : ℚ)
    (bank_id note ref : String) : State :=
  { s with wallet_log := s.wallet_log ++ [⟨log_type, amount, bank_id, note, ref⟩] }

/-- `add_transaction(trans_type, amount, account, category_id, sub_tag_id,
item, note, goal_id, target_account, ref, period_id, bank_id,
payment_method)`: append one row to the Transaction sheet (parameters in the
source's signature order; the row stores them in the sheet's column order). -/
def add_transaction (s : State) (trans_type : String) (amount : ℚ)
    (account category_id sub_tag_id item note goal_id target_account ref
     period_id bank_id payment_method : String) : State :=
  { s with transactions := s.transactions ++
      [⟨trans_type, amount, account, category_id, sub_tag_id, goal_id,
        target_account, item, note, ref, period_id, bank_id, payment_method⟩] }

/-- `add_period(start_date, end_date, living_budget)`: append a Period row
with `Status = Active` and empty `Settled_At`.  The generated `Period_ID` is
passed in explicitly (it comes from the clock in the source). -/
def add_period (s : State) (period_id : String) (start_date end_date : ℤ)
    (living_budget : ℚ) : State :=
  { s with periods := s.periods ++
      [⟨period_id, start_date, end_date, PERIOD_ACTIVE, living_budget, ""⟩] }

/-- `get_period_by_id`: first Period row whose `Period_ID` matches
(`match.iloc[0]`), `None` when there is no match. -/
def get_period_by_id (s : State) (period_id : String) : Option Period :=
  s.periods.find? (fun p => p.period_id == period_id)

/-- Row update performed by `update_period_status`: the first row whose
`Period_ID` matches gets its `Status` cell overwritten, and its `Settled_At`
cell overwritten only when the new value is non-empty (`if settled_at and
...`). -/
def update_period_rows (period_id status settled_at : String) :
    List Period → List Period
  | [] => []
  | p :: rest =>
    if p.period_id == period_id then
      { p with status := status,
               settled_at := if settled_at ≠ "" then settled_at else p.settled_at } :: rest
    else
      p :: update_period_rows period_id status settled_at rest

/-- `update_period_status(period_id, status, settled_at)`: update the first
matching Period row in place (no row matching leaves the sheet unchanged and
returns `False`, which every caller ignores). -/
def update_period_status (s : State) (period_id status settled_at : String) :
    State :=
  { s with periods := update_period_rows period_id status settled_at s.periods }

/-- The expense sum both `settle_period` and `get_living_remaining` compute:
Σ `Amount` over Transaction rows with `Type = Expense`, `Account = Living`
and `Period_ID = period_id`. -/
def total_living_expense (s : State) (period_id : String) : ℚ :=
  ((s.transactions.filter (fun t =>
      t.txn_type == TYPE_EXPENSE && t.account == ACCOUNT_LIVING &&
      t.period_id == period_id)).map (fun t => t.amount)).sum

/-- `settle_period(period_id)` from `src/app.py` lines 1157-1252, with the
generated settlement id and timestamp passed in and store fallibility made
explicit.  Returns the result dict together with the post-call state.
The success message drops the source's formatted amount interpolation. -/
def settle_period (faults : StoreFaults) (s : State)
    (period_id settlement_id now : String) : SettleResult × State :=
  match get_period_by_id s period_id with
  | none => (⟨false, 0, "", "找不到週期"⟩, s)
  | some period =>
    if period.status == PERIOD_SETTLED then
      (⟨false, 0, "", "此週期已結算"⟩, s)
    else
      let budget := period.living_budget
      let total_expense := total_living_expense s period_id
      let net_result := budget - total_expense
      let s1 :=
        if 0 < net_result then
          if faults.txn_append_fails then s
          else add_transaction s TYPE_SETTLEMENT_IN net_result ACCOUNT_FREEFUND
            "" "" "" "週期結算結餘" "" "" period_id "" "" ""
        else if net_result < 0 then
          if faults.txn_append_fails then s
          else add_transaction s TYPE_SETTLEMENT_OUT |net_result| ACCOUNT_BACKUP
            "" "" "" "週期結算超支" "" "" period_id "" "" ""
        else s
      let impact_account :=
        if 0 < net_result then ACCOUNT_FREEFUND
        else if net_result < 0 then ACCOUNT_BACKUP
        else ""
      if faults.settlement_append_fails then
        (⟨false, 0, "", "結算失敗"⟩, s1)
      else
        let s2 := { s1 with settlement_log := s1.settlement_log ++
          [⟨settlement_id, period_id, budget, total_expense, net_result,
            impact_account, now⟩] }
        let s3 :=
          if faults.status_update_fails then s2
          else update_period_status s2 period_id PERIOD_SETTLED now
        (⟨true, net_result, settlement_id,
          if 0 ≤ net_result then "結算完成：結餘" else "結算完成：超支"⟩, s3)

/-- Updating a period's status rewrites exactly the row `get_period_by_id`
returns: `find?` over the updated sheet is the mapped `find?` over the old
sheet. -/
theorem find?_update_period_rows (pid status settled_at : String)
    (l : List Period) :
    (update_period_rows pid status settled_at l).find? (fun q => q.period_id == pid)
      = (l.find? (fun q => q.period_id == pid)).map
          (fun q => { q with
                      status := status,
                      settled_at := if settled_at ≠ "" then settled_at else q.settled_at }) := by
  induction l with
  | nil => rfl
  | cons p rest ih =>
    by_cases h : (p.period_id == pid) = true
    · simp [update_period_rows, h, List.find?_cons_of_pos]
    · simp [update_period_rows, h, List.find?_cons_of_neg, ih]

/-- The status update touches only the Period sheet. -/
@[simp] theorem update_period_status_transactions (s : State)
    (pid status settled_at : String) :
    (update_period_status s pid status settled_at).transactions
      = s.transactions := rfl

/-- The status update touches only the Period sheet. -/
@[simp] theorem update_period_status_wallet_log (s : State)
    (pid status settled_at : String) :
    (update_period_status s pid status settled_at).wallet_log
      = s.wallet_log := rfl

/-- The status update touches only the Period sheet. -/
@[simp] theorem update_period_status_settlement_log (s : State)
    (pid status settled_at : String) :
    (update_period_status s pid status settled_at).settlement_log
      = s.settlement_log := rfl

/-- The status update touches only the Period sheet. -/
@[simp] theorem update_period_status_categories (s : State)
    (pid status settled_at : String) :
    (update_period_status s pid status settled_at).categories
      = s.categories := rfl

/-- The status update touches only the Period sheet. -/
@[simp] theorem update_period_status_config (s : State)
    (pid status settled_at : String) :
    (update_period_status s pid status settled_at).config
      = s.config := rfl

/-- Unfolding lemma: `get_period_by_id` on an explicit state reads only the
Period sheet. -/
theorem get_period_by_id_mk (wl : List WalletLogEntry) (tx : List Txn)
    (per : List Period) (sl : List SettlementRow) (cats : List Category)
    (cfg : Config) (pid : String) :
    get_period_by_id ⟨wl, tx, per, sl, cats, cfg⟩ pid
      = per.find? (fun q => q.period_id == pid) := rfl

/-- Corollary of `find?_update_period_rows` at the `State` level. -/
theorem get_period_by_id_update_period_status (s : State)
    (pid status settled_at : String) :
    get_period_by_id (update_period_status s pid status settled_at) pid
      = (get_period_by_id s pid).map
          (fun q => { q with
                      status := status,
                      settled_at := if settled_at ≠ "" then settled_at else q.settled_at }) := by
  simp [get_period_by_id, update_period_status, find?_update_period_rows]

/-- Full behaviour of a fault-free `settle_period` call on a period that is
not yet settled: shared computation lemma behind C1 and C2. -/
theorem settle_active_spec (s : State) (pid sid now : String) (p : Period)
    (hp : get_period_by_id s pid = some p)
    (hactive : p.status = PERIOD_ACTIVE)
    (hnow : now ≠ "") :
    (settle_period no_store_faults s pid sid now).1.success = true ∧
    (settle_period no_store_faults s pid sid now).1.net_result
      = p.living_budget - total_living_expense s pid ∧
    (0 < p.living_budget - total_living_expense s pid →
      (settle_period no_store_faults s pid sid now).2.transactions
        = s.transactions ++
          [⟨TYPE_SETTLEMENT_IN, p.living_budget - total_living_expense s pid,
            ACCOUNT_FREEFUND, "", "", "", "", "", "週期結算結餘", pid, "", "", ""⟩]) ∧
    (p.living_budget - total_living_expense s pid < 0 →
      (settle_period no_store_faults s pid sid now).2.transactions
        = s.transactions ++
          [⟨TYPE_SETTLEMENT_OUT, |p.living_budget - total_living_expense s pid|,
            ACCOUNT_BACKUP, "", "", "", "", "", "週期結算超支", pid, "", "", ""⟩]) ∧
    (p.living_budget - total_living_expense s pid = 0 →
      (settle_period no_store_faults s pid sid now).2.transactions
        = s.transactions) ∧
    (settle_period no_store_faults s pid sid now).2.settlement_log
      = s.settlement_log ++
        [⟨sid, pid, p.living_budget, total_living_expense s pid,
          p.living_budget - total_living_expense s pid,
          (if 0 < p.living_budget - total_living_expense s pid then ACCOUNT_FREEFUND
           else if p.living_budget - total_living_expense s pid < 0 then ACCOUNT_BACKUP
           else ""), now⟩] ∧
    get_period_by_id (settle_period no_store_faults s pid sid now).2 pid
      = some { p with status := PERIOD_SETTLED, settled_at := now } ∧
    (settle_period no_store_faults s pid sid now).2.wallet_log = s.wallet_log := by
  have hp' : List.find? (fun q => q.period_id == pid) s.periods = some p := hp
  have hneq : (p.status == PERIOD_SETTLED) = false := by
    rw [hactive]; decide
  have hstat : ¬ p.status = PERIOD_SETTLED := by
    rw [hactive]; decide
  rcases lt_trichotomy (0 : ℚ) (p.living_budget - total_living_expense s pid) with
    hpos | hzero | hneg
  · simp [settle_period, hp, hneq, hstat, no_store_faults, hpos, asymm hpos,
      hpos.ne', add_transaction, get_period_by_id_update_period_status,
      get_period_by_id_mk, hp', hnow, le_of_lt hpos, sub_pos, sub_neg, sub_eq_zero]
  · simp [settle_period, hp, hneq, hstat, no_store_faults, ← hzero,
      add_transaction, get_period_by_id_update_period_status,
      get_period_by_id_mk, hp', hnow]
  · simp [settle_period, hp, hneq, hstat, no_store_faults, hneg, asymm hneg,
      hneg.ne, not_lt_of_gt hneg, add_transaction,
      get_period_by_id_update_period_status, get_period_by_id_mk, hp', hnow,
      not_le_of_lt hneg, sub_pos, sub_neg, sub_eq_zero]

/-- C1: for a period whose status is `Active`, `settle_period` computes
`net = living_budget − Σ Expense(Living, period)`; it appends exactly one
`Settlement_In(net, Free_Fund, ref = period id)` when `net > 0`, exactly one
`Settlement_Out(|net|, Back_Up, ref = period id)` when `net < 0`, and no
ledger entry when `net = 0`; in every case it appends exactly one
Settlement_Log record carrying the planned budget, actual expense, net and
impact account (empty, i.e. none, exactly when `net = 0`), and flips the
period's status to `Settled` with `Settled_At` filled in. -/
theorem C1_settle_active (s : State) (pid sid now : String) (p : Period)
    (hp : get_period_by_id s pid = some p)
    (hactive : p.status = PERIOD_ACTIVE)
    (hnow : now ≠ "") :
    (settle_period no_store_faults s pid sid now).1.success = true ∧
    (settle_period no_store_faults s pid sid now).1.net_result
      = p.living_budget - total_living_expense s pid ∧
    (0 < p.living_budget - total_living_expense s pid →
      (settle_period no_store_faults s pid sid now).2.transactions
        = s.transactions ++
          [⟨TYPE_SETTLEMENT_IN, p.living_budget - total_living_expense s pid,
            ACCOUNT_FREEFUND, "", "", "", "", "", "週期結算結餘", pid, "", "", ""⟩]) ∧
    (p.living_budget - total_living_expense s pid < 0 →
      (settle_period no_store_faults s pid sid now).2.transactions
        = s.transactions ++
          [⟨TYPE_SETTLEMENT_OUT, |p.living_budget - total_living_expense s pid|,
            ACCOUNT_BACKUP, "", "", "", "", "", "週期結算超支", pid, "", "", ""⟩]) ∧
    (p.living_budget - total_living_expense s pid = 0 →
      (settle_period no_store_faults s pid sid now).2.transactions
        = s.transactions) ∧
    (settle_period no_store_faults s pid sid now).2.settlement_log
      = s.settlement_log ++
        [⟨sid, pid, p.living_budget, total_living_expense s pid,
          p.living_budget - total_living_expense s pid,
          (if 0 < p.living_budget - total_living_expense s pid then ACCOUNT_FREEFUND
           else if p.living_budget - total_living_expense s pid < 0 then ACCOUNT_BACKUP
           else ""), now⟩] ∧
    get_period_by_id (settle_period no_store_faults s pid sid now).2 pid
      = some { p with status := PERIOD_SETTLED, settled_at := now } ∧
    (settle_period no_store_faults s pid sid now).2.wallet_log = s.wallet_log :=
  settle_active_spec s pid sid now p hp hactive hnow

/-- Sample period used by witnesses: Active, 30-day, budget 100. -/
def sample_period_1 : Period := ⟨"P1", 0, 30, "Active", 100, ""⟩

/-- Sample state: one Active period `P1` and one Living expense of 40 in it. -/
def sample_state_1 : State :=
  ⟨[], [⟨"Expense", 40, "Living", "CAT1", "", "", "", "lunch", "", "", "P1", "", ""⟩],
   [sample_period_1], [], [], ⟨0, 0⟩⟩

/-- Witness for C1: settling the sample Active period succeeds with net
`100 − 40 = 60`. -/
theorem C1_settle_active_witness :
    (settle_period no_store_faults sample_state_1 "P1" "S1" "t1").1.success = true ∧
    (settle_period no_store_faults sample_state_1 "P1" "S1" "t1").1.net_result = 60 := by
  have h := C1_settle_active sample_state_1 "P1" "S1" "t1" sample_period_1
    (by decide) rfl (by decide)
  refine ⟨h.1, ?_⟩
  rw [h.2.1]
  simp [sample_period_1, sample_state_1, total_living_expense, TYPE_EXPENSE,
    ACCOUNT_LIVING]
  norm_num

/-- Settlement_Log rows recorded for a given period. -/
def settlement_rows_for (s : State) (pid : String) : List SettlementRow :=
  s.settlement_log.filter (fun r => r.period_id == pid)

/-- Compensating ledger entries (`Settlement_In` / `Settlement_Out`) whose
`Ref` is the given period id — the entries a settlement of that period
writes. -/
def compensating_txns_for (s : State) (pid : String) : List Txn :=
  s.transactions.filter (fun t =>
    (t.txn_type == TYPE_SETTLEMENT_IN || t.txn_type == TYPE_SETTLEMENT_OUT) &&
    t.ref == pid)

/-- Shared lemma: `settle_period` on a period whose status is `Settled`
returns the already-settled failure and leaves the state untouched, whatever
the store does. -/
theorem settle_settled_rejected (faults : StoreFaults) (s : State)
    (pid sid now : String) (q : Period)
    (hq : get_period_by_id s pid = some q)
    (hst : q.status = PERIOD_SETTLED) :
    settle_period faults s pid sid now = (⟨false, 0, "", "此週期已結算"⟩, s) := by
  have hb : (q.status == PERIOD_SETTLED) = true := by rw [hst]; decide
  simp [settle_period, hq, hb]

/-- C2 (amended): a settle call on an already-Settled period is rejected with
the already-settled failure and has no side effect at all; consequently,
settling an Active period and then calling settle again leaves exactly one
SettlementRecord for the period and — here the original claim needs the
`net = 0` proviso — exactly one compensating ledger entry when `net ≠ 0` but
none when `net = 0`, with the second call returning the already-settled
failure. -/
theorem C2_settle_twice (s : State) (pid sid1 now1 sid2 now2 : String)
    (p : Period)
    (hp : get_period_by_id s pid = some p)
    (hactive : p.status = PERIOD_ACTIVE)
    (hnow : now1 ≠ "")
    (hclean_log : settlement_rows_for s pid = [])
    (hclean_txn : compensating_txns_for s pid = []) :
    (∀ (s0 : State) (q : Period) (sid now : String),
        get_period_by_id s0 pid = some q → q.status = PERIOD_SETTLED →
        settle_period no_store_faults s0 pid sid now
          = (⟨false, 0, "", "此週期已結算"⟩, s0)) ∧
    settle_period no_store_faults
        (settle_period no_store_faults s pid sid1 now1).2 pid sid2 now2
      = (⟨false, 0, "", "此週期已結算"⟩,
         (settle_period no_store_faults s pid sid1 now1).2) ∧
    (settlement_rows_for (settle_period no_store_faults s pid sid1 now1).2 pid).length
      = 1 ∧
    (compensating_txns_for (settle_period no_store_faults s pid sid1 now1).2 pid).length
      = (if p.living_budget - total_living_expense s pid = 0 then 0 else 1) := by
  obtain ⟨hsucc, hnet, hpos_t, hneg_t, hzero_t, hslog, hperiod, hwl⟩ :=
    settle_active_spec s pid sid1 now1 p hp hactive hnow
  simp [settlement_rows_for] at hclean_log
  simp [compensating_txns_for, TYPE_SETTLEMENT_IN, TYPE_SETTLEMENT_OUT] at hclean_txn
  refine ⟨?_, ?_, ?_, ?_⟩
  · intro s0 q sid now hq hst
    exact settle_settled_rejected no_store_faults s0 pid sid now q hq hst
  · exact settle_settled_rejected no_store_faults
      (settle_period no_store_faults s pid sid1 now1).2 pid sid2 now2 _ hperiod rfl
  · simpa [settlement_rows_for, hslog, List.filter_append] using hclean_log
  · rcases lt_trichotomy (0 : ℚ) (p.living_budget - total_living_expense s pid) with
      hpos | hzero | hneg
    · simpa [compensating_txns_for, hpos_t hpos, List.filter_append,
        TYPE_SETTLEMENT_IN, TYPE_SETTLEMENT_OUT, hpos.ne'] using hclean_txn
    · simpa [compensating_txns_for, hzero_t hzero.symm, ← hzero,
        TYPE_SETTLEMENT_IN, TYPE_SETTLEMENT_OUT] using hclean_txn
    · simpa [compensating_txns_for, hneg_t hneg, List.filter_append,
        TYPE_SETTLEMENT_IN, TYPE_SETTLEMENT_OUT, hneg.ne] using hclean_txn

/-- Witness for C2: on the sample state the second settle call is the
already-settled rejection and exactly one SettlementRecord exists. -/
theorem C2_settle_twice_witness :
    settle_period no_store_faults
        (settle_period no_store_faults sample_state_1 "P1" "S1" "t1").2 "P1" "S2" "t2"
      = (⟨false, 0, "", "此週期已結算"⟩,
         (settle_period no_store_faults sample_state_1 "P1" "S1" "t1").2) ∧
    (settlement_rows_for
        (settle_period no_store_faults sample_state_1 "P1" "S1" "t1").2 "P1").length
      = 1 :=
  have h := C2_settle_twice sample_state_1 "P1" "S1" "t1" "S2" "t2" sample_period_1
    (by decide) rfl (by decide) (by decide) (by decide)
  ⟨h.2.1, h.2.2.1⟩

/-- Sample period with zero budget (so settlement nets to zero). -/
def sample_period_2 : Period := ⟨"P2", 0, 30, "Active", 0, ""⟩

/-- Sample state whose settlement nets to zero: Active period `P2`, no
transactions at all. -/
def sample_state_2 : State := ⟨[], [], [sample_period_2], [], [], ⟨0, 0⟩⟩

/-- Counterexample to C2 as stated: settling `P2` (net = 0) twice leaves ZERO
compensating ledger entries, not one, even though the second call does return
the already-settled failure and exactly one SettlementRecord exists. -/
theorem C2_counterexample :
    (settle_period no_store_faults
        (settle_period no_store_faults sample_state_2 "P2" "S1" "t1").2 "P2" "S2" "t2").1
      = ⟨false, 0, "", "此週期已結算"⟩ ∧
    (settlement_rows_for
        (settle_period no_store_faults sample_state_2 "P2" "S1" "t1").2 "P2").length = 1 ∧
    (compensating_txns_for
        (settle_period no_store_faults sample_state_2 "P2" "S1" "t1").2 "P2").length = 0 := by
  obtain ⟨hsucc, hnet, hpos_t, hneg_t, hzero_t, hslog, hperiod, hwl⟩ :=
    settle_active_spec sample_state_2 "P2" "S1" "t1" sample_period_2
      (by decide) rfl (by decide)
  have hz : sample_period_2.living_budget - total_living_expense sample_state_2 "P2" = 0 := by
    simp [sample_period_2, sample_state_2, total_living_expense]
  refine ⟨?_, ?_, ?_⟩
  · rw [settle_settled_rejected no_store_faults
      (settle_period no_store_faults sample_state_2 "P2" "S1" "t1").2 "P2" "S2" "t2"
      _ hperiod rfl]
  · simp only [settlement_rows_for]
    rw [hslog]
    simp [sample_state_2]
  · simp only [compensating_txns_for]
    rw [hzero_t hz]
    simp [sample_state_2]

/-- `get_period_days_left(period)`: `(End_Date − today).days + 1`, floored at
0.  Dates are integer day numbers, so pandas' `.days` is plain subtraction. -/
def get_period_days_left (period : Period) (today : ℤ) : ℤ :=
  max (period.end_date - today + 1) 0

/-- `get_active_period()`: the most recently created row among the periods
with `Status = Active` (`active.iloc[-1]`), or none. -/
def get_active_period (s : State) : Option Period :=
  (s.periods.filter (fun p => p.status == PERIOD_ACTIVE)).getLast?

/-- `get_days_left_in_period()`: the current-period days-left used by the
dashboard, floored at 1 (0 when no Active period exists).  This is a distinct
derivation from `get_period_days_left`. -/
def get_days_left_in_period (s : State) (today : ℤ) : ℤ :=
  match get_active_period s with
  | none => 0
  | some period => max (period.end_date - today + 1) 1

/-- C6: `daysLeftInclusive(period)` — the period-parameterised
`get_period_days_left` — equals `max((end_date − today).days + 1, 0)`, is
exactly 1 when today is the final day and exactly 0 the day after
`end_date`. -/
theorem C6_days_left (p : Period) (today : ℤ) :
    get_period_days_left p today = max (p.end_date - today + 1) 0 ∧
    (today = p.end_date → get_period_days_left p today = 1) ∧
    (today = p.end_date + 1 → get_period_days_left p today = 0) := by
  refine ⟨rfl, ?_, ?_⟩ <;> rintro rfl <;> simp [get_period_days_left]

/-- Witness for C6 at the sample period (`end_date = 30`): 1 on day 30, 0 on
day 31. -/
theorem C6_days_left_witness :
    get_period_days_left sample_period_1 30 = 1 ∧
    get_period_days_left sample_period_1 31 = 0 :=
  ⟨(C6_days_left sample_period_1 30).2.1 rfl,
   (C6_days_left sample_period_1 31).2.2 (by norm_num [sample_period_1])⟩

/-- `get_living_remaining(period_id)`: `Living_Budget − Σ Expense(Living,
period)`; 0 when the period does not exist. -/
def get_living_remaining (s : State) (period_id : String) : ℚ :=
  match get_period_by_id s period_id with
  | none => 0
  | some period => period.living_budget - total_living_expense s period_id

/-- `get_daily_available(period_id)`: living remainder divided by the days
left, falling back to the whole remainder when `days_left ≤ 0`; 0 when the
period does not exist. -/
def get_daily_available (s : State) (period_id : String) (today : ℤ) : ℚ :=
  match get_period_by_id s period_id with
  | none => 0
  | some period =>
    let remaining := get_living_remaining s period_id
    let days_left := get_period_days_left period today
    if days_left ≤ 0 then remaining else remaining / (days_left : ℚ)

/-- C7: for an existing period, `get_daily_available` is
`living remaining ÷ days left` when at least one day is left and the full
remainder when `days_left ≤ 0`, with the remainder being
`living_budget − Σ Expense(Living, period)`. -/
theorem C7_daily_available (s : State) (pid : String) (today : ℤ) (p : Period)
    (hp : get_period_by_id s pid = some p) :
    (1 ≤ get_period_days_left p today →
      get_daily_available s pid today
        = get_living_remaining s pid / ((get_period_days_left p today : ℤ) : ℚ)) ∧
    (get_period_days_left p today ≤ 0 →
      get_daily_available s pid today = get_living_remaining s pid) ∧
    get_living_remaining s pid = p.living_budget - total_living_expense s pid := by
  refine ⟨?_, ?_, ?_⟩
  · intro h
    have hne : ¬ get_period_days_left p today ≤ 0 := by omega
    simp [get_daily_available, hp, hne]
  · intro h
    simp [get_daily_available, hp, h]
  · simp [get_living_remaining, hp]

/-- Witness for C7 on the sample state at day 15 (16 days left). -/
theorem C7_daily_available_witness :
    get_daily_available sample_state_1 "P1" 15
      = get_living_remaining sample_state_1 "P1"
        / ((get_period_days_left sample_period_1 15 : ℤ) : ℚ) :=
  (C7_daily_available sample_state_1 "P1" 15 sample_period_1 (by decide)).1
    (by decide)

/-- Sum of `Amount` over the Wallet_Log rows of one `Type` — the
`logs[logs["Type"] == ty]["Amount"].sum()` pattern. -/
def wallet_type_sum (s : State) (ty : String) : ℚ :=
  ((s.wallet_log.filter (fun e => e.log_type == ty)).map (fun e => e.amount)).sum

/-- `get_wallet_balance()`: `Income − Allocate_Out + Transfer_In +
Adjustment` over the Wallet_Log. -/
def get_wallet_balance (s : State) : ℚ :=
  wallet_type_sum s WALLET_INCOME - wallet_type_sum s WALLET_ALLOCATE_OUT
    + wallet_type_sum s WALLET_TRANSFER_IN + wallet_type_sum s WALLET_ADJUSTMENT

/-- Sum of `Amount` over the Transaction rows a Boolean row-filter keeps —
the `transactions[mask]["Amount"].sum()` pattern. -/
def txn_sum (s : State) (pr : Txn → Bool) : ℚ :=
  ((s.transactions.filter pr).map (fun t => t.amount)).sum

/-- `get_backup_balance()`: `Back_Up_Initial − Σ Settlement_Out +
Σ Transfer(→Back_Up) − Σ Transfer(Back_Up→)`. -/
def get_backup_balance (s : State) : ℚ :=
  s.config.back_up_initial
    - txn_sum s (fun t => t.txn_type == TYPE_SETTLEMENT_OUT)
    + txn_sum s (fun t => t.txn_type == TYPE_TRANSFER &&
        t.target_account == ACCOUNT_BACKUP)
    - txn_sum s (fun t => t.txn_type == TYPE_TRANSFER &&
        t.account == ACCOUNT_BACKUP)

/-- `get_free_fund_balance()`: `Free_Fund_Initial + Σ Settlement_In +
Σ Transfer(→Free_Fund) − Σ Transfer(Free_Fund→)`. -/
def get_free_fund_balance (s : State) : ℚ :=
  s.config.free_fund_initial
    + txn_sum s (fun t => t.txn_type == TYPE_SETTLEMENT_IN)
    + txn_sum s (fun t => t.txn_type == TYPE_TRANSFER &&
        t.target_account == ACCOUNT_FREEFUND)
    - txn_sum s (fun t => t.txn_type == TYPE_TRANSFER &&
        t.account == ACCOUNT_FREEFUND)

/-- `get_saving_balance(goal_id)`: `Σ Saving_In − Σ Saving_Out −
Σ Transfer(Saving,goal→) + Σ Transfer(→Saving,goal)`. -/
def get_saving_balance (s : State) (goal_id : String) : ℚ :=
  txn_sum s (fun t => t.txn_type == TYPE_SAVING_IN && t.goal_id == goal_id)
    - txn_sum s (fun t => t.txn_type == TYPE_SAVING_OUT && t.goal_id == goal_id)
    - txn_sum s (fun t => t.txn_type == TYPE_TRANSFER &&
        t.account == ACCOUNT_SAVING && t.goal_id == goal_id)
    + txn_sum s (fun t => t.txn_type == TYPE_TRANSFER &&
        t.target_account == ACCOUNT_SAVING && t.goal_id == goal_id)

/-- `get_category_spent(category_id, period_id)`: `Σ Expense(category,
period)`. -/
def get_category_spent (s : State) (category_id period_id : String) : ℚ :=
  txn_sum s (fun t => t.txn_type == TYPE_EXPENSE &&
    t.category_id == category_id && t.period_id == period_id)

/-- Filter-then-sum derivations are invariant under permutation of the
underlying log. -/
theorem sum_map_filter_perm {α : Type} (f : α → ℚ) (pr : α → Bool)
    {l1 l2 : List α} (h : l1.Perm l2) :
    ((l1.filter pr).map f).sum = ((l2.filter pr).map f).sum :=
  ((h.filter pr).map f).sum_eq

/-- C8: replaying the Transaction log and the Wallet log in any other order
(same multiset of records, all other sheets unchanged) leaves every Balance
Engine derivation — wallet balance, Back_Up, Free_Fund, saving balances,
category spent, living remaining and daily available — unchanged. -/
theorem C8_replay_invariance (s : State) (tl : List Txn)
    (wl : List WalletLogEntry)
    (ht : s.transactions.Perm tl) (hw : s.wallet_log.Perm wl) :
    get_wallet_balance { s with transactions := tl, wallet_log := wl }
      = get_wallet_balance s ∧
    get_backup_balance { s with transactions := tl, wallet_log := wl }
      = get_backup_balance s ∧
    get_free_fund_balance { s with transactions := tl, wallet_log := wl }
      = get_free_fund_balance s ∧
    (∀ gid, get_saving_balance { s with transactions := tl, wallet_log := wl } gid
      = get_saving_balance s gid) ∧
    (∀ cid pid, get_category_spent { s with transactions := tl, wallet_log := wl } cid pid
      = get_category_spent s cid pid) ∧
    (∀ pid, get_living_remaining { s with transactions := tl, wallet_log := wl } pid
      = get_living_remaining s pid) ∧
    (∀ pid today, get_daily_available { s with transactions := tl, wallet_log := wl } pid today
      = get_daily_available s pid today) := by
  have hts : ∀ pr : Txn → Bool,
      ((tl.filter pr).map (fun t => t.amount)).sum
        = ((s.transactions.filter pr).map (fun t => t.amount)).sum :=
    fun pr => (sum_map_filter_perm (fun t => t.amount) pr ht).symm
  have hws : ∀ pr : WalletLogEntry → Bool,
      ((wl.filter pr).map (fun e => e.amount)).sum
        = ((s.wallet_log.filter pr).map (fun e => e.amount)).sum :=
    fun pr => (sum_map_filter_perm (fun e => e.amount) pr hw).symm
  have htle : ∀ pid, total_living_expense { s with transactions := tl, wallet_log := wl } pid
      = total_living_expense s pid := by
    intro pid
    simp only [total_living_expense]
    exact hts _
  have hlr : ∀ pid, get_living_remaining { s with transactions := tl, wallet_log := wl } pid
      = get_living_remaining s pid := by
    intro pid
    simp only [get_living_remaining, get_period_by_id]
    cases hfind : s.periods.find? (fun q => q.period_id == pid) with
    | none => simp [hfind]
    | some q => simp [hfind, htle]
  refine ⟨?_, ?_, ?_, ?_, ?_, hlr, ?_⟩
  · simp only [get_wallet_balance, wallet_type_sum]
    simp [hws]
  · simp only [get_backup_balance, txn_sum]
    simp [hts]
  · simp only [get_free_fund_balance, txn_sum]
    simp [hts]
  · intro gid
    simp only [get_saving_balance, txn_sum]
    simp [hts]
  · intro cid pid
    simp only [get_category_spent, txn_sum]
    simp [hts]
  · intro pid today
    simp only [get_daily_available, get_period_by_id]
    cases hfind : s.periods.find? (fun q => q.period_id == pid) with
    | none => simp [hfind]
    | some q => simp [hfind, hlr pid]

/-- Sample state with two wallet entries and two transactions, for the C8
witness. -/
def sample_state_3 : State :=
  ⟨[⟨"Income", 100, "", "", ""⟩, ⟨"Allocate_Out", 30, "", "", ""⟩],
   [⟨"Expense", 40, "Living", "CAT1", "", "", "", "", "", "", "P1", "", ""⟩,
    ⟨"Saving_In", 10, "Saving", "", "", "G1", "", "", "", "", "P1", "", ""⟩],
   [sample_period_1], [], [], ⟨5, 7⟩⟩

/-- Witness for C8: swapping both logs of the sample state preserves the
wallet and Back_Up balances (and, by the theorem, every other derivation). -/
theorem C8_replay_invariance_witness :
    get_wallet_balance { sample_state_3 with
      transactions :=
        [⟨"Saving_In", 10, "Saving", "", "", "G1", "", "", "", "", "P1", "", ""⟩,
         ⟨"Expense", 40, "Living", "CAT1", "", "", "", "", "", "", "P1", "", ""⟩],
      wallet_log :=
        [⟨"Allocate_Out", 30, "", "", ""⟩, ⟨"Income", 100, "", "", ""⟩] }
      = get_wallet_balance sample_state_3 ∧
    get_backup_balance { sample_state_3 with
      transactions :=
        [⟨"Saving_In", 10, "Saving", "", "", "G1", "", "", "", "", "P1", "", ""⟩,
         ⟨"Expense", 40, "Living", "CAT1", "", "", "", "", "", "", "P1", "", ""⟩],
      wallet_log :=
        [⟨"Allocate_Out", 30, "", "", ""⟩, ⟨"Income", 100, "", "", ""⟩] }
      = get_backup_balance sample_state_3 :=
  have h := C8_replay_invariance sample_state_3
    [⟨"Saving_In", 10, "Saving", "", "", "G1", "", "", "", "", "P1", "", ""⟩,
     ⟨"Expense", 40, "Living", "CAT1", "", "", "", "", "", "", "P1", "", ""⟩]
    [⟨"Allocate_Out", 30, "", "", ""⟩, ⟨"Income", 100, "", "", ""⟩]
    (by decide) (by decide)
  ⟨h.1, h.2.1⟩

/-- The two Period-lifecycle operations of the engine: `add_period`
(`createPeriod`) and `settle_period`. -/
inductive PeriodOp where
  | create (period_id : String) (start_date end_date : ℤ) (living_budget : ℚ)
  | settle (period_id settlement_id now : String)

/-- Apply one lifecycle operation (fault-free store). -/
def apply_period_op (s : State) : PeriodOp → State
  | PeriodOp.create pid sd ed lb => add_period s pid sd ed lb
  | PeriodOp.settle pid sid now => (settle_period no_store_faults s pid sid now).2

/-- Run a sequence of lifecycle operations. -/
def run_period_ops (s : State) : List PeriodOp → State
  | [] => s
  | op :: rest => run_period_ops (apply_period_op s op) rest

/-- Number of Period rows with `Status = Active`. -/
def active_count (s : State) : ℕ :=
  (s.periods.filter (fun p => p.status == PERIOD_ACTIVE)).length

/-- The documented precondition of §4.2/§9: every `createPeriod` call happens
only when no Active period exists (the caller settled it first). -/
def respects_precondition : State → List PeriodOp → Prop
  | _, [] => True
  | s, op :: rest =>
    (match op with
     | PeriodOp.create _ _ _ _ => active_count s = 0
     | PeriodOp.settle _ _ _ => True) ∧
    respects_precondition (apply_period_op s op) rest

/-- Setting one period's status to `Settled` never increases the number of
Active rows. -/
theorem filter_length_update_le (pid now : String) (l : List Period) :
    ((update_period_rows pid PERIOD_SETTLED now l).filter
        (fun p => p.status == PERIOD_ACTIVE)).length
      ≤ (l.filter (fun p => p.status == PERIOD_ACTIVE)).length := by
  have hfalse : (PERIOD_SETTLED == PERIOD_ACTIVE) = false := by decide
  induction l with
  | nil => simp [update_period_rows]
  | cons p rest ih =>
    by_cases h : (p.period_id == pid) = true
    · simp only [update_period_rows, h, if_true, List.filter_cons, hfalse]
      cases hst : (p.status == PERIOD_ACTIVE) <;> simp [hst]
    · simp only [update_period_rows, h, if_false, Bool.false_eq_true,
        List.filter_cons]
      cases hst : (p.status == PERIOD_ACTIVE) <;> simp [hst] <;> omega

/-- Creating a period appends exactly one more Active row. -/
theorem active_count_add_period (s : State) (pid : String) (sd ed : ℤ)
    (lb : ℚ) :
    active_count (add_period s pid sd ed lb) = active_count s + 1 := by
  simp [active_count, add_period, List.filter_append, PERIOD_ACTIVE]

/-- A settle call never increases the number of Active periods, whatever the
store does. -/
theorem active_count_settle_le (faults : StoreFaults) (s : State)
    (pid sid now : String) :
    active_count (settle_period faults s pid sid now).2 ≤ active_count s := by
  simp only [settle_period]
  cases h : get_period_by_id s pid with
  | none => exact le_refl _
  | some p =>
    by_cases hs : (p.status == PERIOD_SETTLED) = true
    · simp [hs]
    · simp only [hs, Bool.false_eq_true, if_false]
      split_ifs <;>
        simp [active_count, update_period_status, add_transaction,
          filter_length_update_le]

/-- C4: along any `createPeriod`/`settle` trace that respects the documented
precondition (no Active period exists when `createPeriod` is invoked), a
state with at most one Active period keeps at most one Active period — while
`createPeriod` itself unconditionally appends a fresh `Active` row, with no
check against a pre-existing Active period. -/
theorem C4_period_singularity (s : State) (ops : List PeriodOp)
    (h1 : active_count s ≤ 1) (h2 : respects_precondition s ops) :
    active_count (run_period_ops s ops) ≤ 1 ∧
    (∀ (s0 : State) (pid : String) (sd ed : ℤ) (lb : ℚ),
      (add_period s0 pid sd ed lb).periods
        = s0.periods ++ [⟨pid, sd, ed, PERIOD_ACTIVE, lb, ""⟩]) := by
  refine ⟨?_, fun s0 pid sd ed lb => rfl⟩
  induction ops generalizing s with
  | nil => exact h1
  | cons op rest ih =>
    obtain ⟨hpre, hrest⟩ := h2
    refine ih (apply_period_op s op) ?_ hrest
    cases op with
    | create pid sd ed lb =>
      have h0 : active_count s = 0 := hpre
      simp only [apply_period_op]
      rw [active_count_add_period, h0]
    | settle pid sid now =>
      exact le_trans (active_count_settle_le no_store_faults s pid sid now) h1

/-- Witness for C4: a create–settle–create trace from the empty spreadsheet
respects the precondition and ends with exactly one Active period. -/
theorem C4_period_singularity_witness :
    active_count (run_period_ops ⟨[], [], [], [], [], ⟨0, 0⟩⟩
      [PeriodOp.create "P1" 0 30 0, PeriodOp.settle "P1" "S1" "t1",
       PeriodOp.create "P2" 31 61 0]) ≤ 1 :=
  (C4_period_singularity ⟨[], [], [], [], [], ⟨0, 0⟩⟩
    [PeriodOp.create "P1" 0 30 0, PeriodOp.settle "P1" "S1" "t1",
     PeriodOp.create "P2" 31 61 0]
    (by decide)
    (by refine ⟨by decide, trivial, ?_, trivial⟩
        norm_num [apply_period_op, settle_period, get_period_by_id, add_period,
          total_living_expense, update_period_status, update_period_rows,
          active_count, no_store_faults, PERIOD_ACTIVE, PERIOD_SETTLED,
          TYPE_EXPENSE, ACCOUNT_LIVING]
        decide)).1

/-- The wizard session data (`st.session_state.ritual_data`) at commit time:
dates, the Stage-3 living budget, the Stage-4 allocations and the stored
`wallet_remaining` (computed at Stage-4 render time as
`wallet balance − living − Σ saving − backup`). -/
structure RitualData where
  start_date : ℤ
  end_date : ℤ
  living_budget : ℚ
  saving_allocations : List (String × ℚ)
  backup_allocation : ℚ
  wallet_remaining : ℚ
  category_budgets : List (String × ℚ)

/-- Row update of `update_category` (only the `Budget` column, as
`complete_ritual` uses it): first matching row gets the new budget. -/
def update_category_rows (category_id : String) (budget : ℚ) :
    List Category → List Category
  | [] => []
  | c :: rest =>
    if c.category_id == category_id then { c with budget := budget } :: rest
    else c :: update_category_rows category_id budget rest

/-- `update_category(category_id, {"Budget": budget})`. -/
def update_category (s : State) (category_id : String) (budget : ℚ) : State :=
  { s with categories := update_category_rows category_id budget s.categories }

/-- One iteration of `complete_ritual`'s saving-allocation loop: an
allocation is written (Wallet_Log `Allocate_Out` + ledger `Saving_In`) only
when its amount is strictly positive. -/
def ritual_saving_step (period_id : String) (s : State) (ga : String × ℚ) :
    State :=
  if 0 < ga.2 then
    add_transaction
      (add_wallet_log s WALLET_ALLOCATE_OUT ga.2 "" "Saving 分配" ga.1)
      TYPE_SAVING_IN ga.2 ACCOUNT_SAVING "" "" "" "週期儀式分配" ga.1 "" ""
      period_id "" ""
  else s

/-- `complete_ritual()` from `src/app.py` lines 1781-1875: create the new
period, write the Living allocation, the positive saving allocations, the
positive Back_Up allocation (with its `Transfer`), sweep a positive
`wallet_remaining` into Free_Fund (`Settlement_In`), and persist the edited
category budgets.  The generated period id is passed in. -/
def complete_ritual (s : State) (d : RitualData) (period_id : String) : State :=
  let s1 := add_period s period_id d.start_date d.end_date d.living_budget
  let s2 := add_wallet_log s1 WALLET_ALLOCATE_OUT d.living_budget ""
    "Living 分配" period_id
  let s3 := d.saving_allocations.foldl (ritual_saving_step period_id) s2
  let s4 :=
    if 0 < d.backup_allocation then
      add_transaction
        (add_wallet_log s3 WALLET_ALLOCATE_OUT d.backup_allocation ""
          "Back Up 分配" "Back_Up")
        TYPE_TRANSFER d.backup_allocation ACCOUNT_WALLET "" "" ""
        "週期儀式 Back Up 補血" "" ACCOUNT_BACKUP "" period_id "" ""
    else s3
  let s5 :=
    if 0 < d.wallet_remaining then
      add_transaction
        (add_wallet_log s4 WALLET_ALLOCATE_OUT d.wallet_remaining ""
          "未分配餘額轉入 Free Fund" period_id)
        TYPE_SETTLEMENT_IN d.wallet_remaining ACCOUNT_FREEFUND "" "" ""
        "週期儀式未分配餘額" "" "" "" period_id "" ""
    else s4
  d.category_budgets.foldl (fun st cb => update_category st cb.1 cb.2) s5

/-- Appending a ledger transaction does not change the wallet balance. -/
theorem get_wallet_balance_add_transaction (s : State) (tt : String) (a : ℚ)
    (x1 x2 x3 x4 x5 x6 x7 x8 x9 x10 x11 : String) :
    get_wallet_balance
        (add_transaction s tt a x1 x2 x3 x4 x5 x6 x7 x8 x9 x10 x11)
      = get_wallet_balance s := rfl

/-- Creating a period does not change the wallet balance. -/
theorem get_wallet_balance_add_period (s : State) (pid : String) (sd ed : ℤ)
    (lb : ℚ) :
    get_wallet_balance (add_period s pid sd ed lb) = get_wallet_balance s := rfl

/-- Editing a category budget does not change the wallet balance. -/
theorem get_wallet_balance_update_category (s : State) (cid : String)
    (b : ℚ) :
    get_wallet_balance (update_category s cid b) = get_wallet_balance s := rfl

/-- An `Allocate_Out` wallet-log append decreases the wallet balance by its
amount. -/
theorem get_wallet_balance_alloc_out (s : State) (amount : ℚ) (b n r : String) :
    get_wallet_balance (add_wallet_log s WALLET_ALLOCATE_OUT amount b n r)
      = get_wallet_balance s - amount := by
  simp [get_wallet_balance, add_wallet_log, wallet_type_sum, List.filter_append,
    WALLET_INCOME, WALLET_ALLOCATE_OUT, WALLET_TRANSFER_IN, WALLET_ADJUSTMENT]
  ring

/-- The saving-allocation loop deducts exactly the positive allocations from
the wallet balance. -/
theorem wallet_balance_saving_fold (pid : String) (l : List (String × ℚ))
    (s : State) :
    get_wallet_balance (l.foldl (ritual_saving_step pid) s)
      = get_wallet_balance s
        - (l.map (fun ga => if 0 < ga.2 then ga.2 else 0)).sum := by
  induction l generalizing s with
  | nil => simp
  | cons ga rest ih =>
    simp only [List.foldl_cons, List.map_cons, List.sum_cons]
    rw [ih]
    by_cases h : 0 < ga.2
    · simp only [ritual_saving_step, if_pos h,
        get_wallet_balance_add_transaction, get_wallet_balance_alloc_out]
      ring
    · simp only [ritual_saving_step, if_neg h]
      ring

/-- The category-budget loop does not change the wallet balance. -/
theorem wallet_balance_category_fold (l : List (String × ℚ)) (s : State) :
    get_wallet_balance
        (l.foldl (fun st cb => update_category st cb.1 cb.2) s)
      = get_wallet_balance s := by
  induction l generalizing s with
  | nil => rfl
  | cons cb rest ih =>
    rw [List.foldl_cons, ih, get_wallet_balance_update_category]

/-- When every allocation is non-negative, clipping at zero changes nothing. -/
theorem clip_sum_eq (l : List (String × ℚ)) (h : ∀ ga ∈ l, 0 ≤ ga.2) :
    (l.map (fun ga => if 0 < ga.2 then ga.2 else 0)).sum
      = (l.map (fun ga => ga.2)).sum := by
  induction l with
  | nil => rfl
  | cons ga rest ih =>
    simp only [List.map_cons, List.sum_cons]
    rw [ih (fun x hx => h x (List.mem_cons_of_mem ga hx))]
    rcases lt_or_eq_of_le (h ga (List.mem_cons_self ga rest)) with hlt | heq
    · rw [if_pos hlt]
    · rw [if_neg (by rw [← heq]; exact lt_irrefl 0), ← heq]

/-- C3 (amended): after a Rollover commit with living budget `L`, saving
allocations summing to `S`, Back_Up allocation `B` and starting wallet
balance `W`, where the commit gate held (`wallet_remaining = W−L−S−B ≥ 0`,
`L > 0`) and — the amendment — every collected allocation amount is
non-negative, the post-commit wallet balance is `W − L − S − B − r` with
`r = max (W − L − S − B) 0` the swept remainder. -/
theorem C3_conservation (s : State) (d : RitualData) (pid : String)
    (hrem : d.wallet_remaining
      = get_wallet_balance s - d.living_budget
        - (d.saving_allocations.map (fun ga => ga.2)).sum
        - d.backup_allocation)
    (hgate : 0 ≤ d.wallet_remaining)
    (_hL : 0 < d.living_budget)
    (hS : ∀ ga ∈ d.saving_allocations, 0 ≤ ga.2)
    (hB : 0 ≤ d.backup_allocation) :
    get_wallet_balance (complete_ritual s d pid)
      = get_wallet_balance s - d.living_budget
        - (d.saving_allocations.map (fun ga => ga.2)).sum
        - d.backup_allocation
        - max (get_wallet_balance s - d.living_budget
            - (d.saving_allocations.map (fun ga => ga.2)).sum
            - d.backup_allocation) 0 := by
  have hmax : max (get_wallet_balance s - d.living_budget
      - (d.saving_allocations.map (fun ga => ga.2)).sum
      - d.backup_allocation) 0 = d.wallet_remaining := by
    rw [← hrem]
    exact max_eq_left hgate
  rw [hmax]
  have key : get_wallet_balance (complete_ritual s d pid)
      = get_wallet_balance s - d.living_budget
        - (d.saving_allocations.map (fun ga => ga.2)).sum
        - (if 0 < d.backup_allocation then d.backup_allocation else 0)
        - (if 0 < d.wallet_remaining then d.wallet_remaining else 0) := by
    simp only [complete_ritual]
    rw [wallet_balance_category_fold]
    by_cases hr : 0 < d.wallet_remaining <;> by_cases hb : 0 < d.backup_allocation <;>
      simp only [hr, hb, if_pos, if_neg, if_true, if_false,
        get_wallet_balance_add_transaction, get_wallet_balance_alloc_out,
        wallet_balance_saving_fold, clip_sum_eq _ hS,
        get_wallet_balance_add_period] <;>
      ring
  rw [key]
  rcases lt_or_eq_of_le hB with hb | hb
  · rw [if_pos hb]
    rcases lt_or_eq_of_le hgate with hr | hr
    · rw [if_pos hr]
    · rw [if_neg (by rw [← hr]; exact lt_irrefl 0), ← hr]
  · rw [if_neg (by rw [← hb]; exact lt_irrefl 0), ← hb]
    rcases lt_or_eq_of_le hgate with hr | hr
    · rw [if_pos hr]
    · rw [if_neg (by rw [← hr]; exact lt_irrefl 0), ← hr]

/-- Commit-time state for the C3 witness: one income of 100 in the wallet. -/
def c3_state : State := ⟨[⟨"Income", 100, "", "", ""⟩], [], [], [], [], ⟨0, 0⟩⟩

/-- All-non-negative ritual data: `L = 50`, `S = 10`, `B = 20`,
`wallet_remaining = 20`. -/
def c3_data_ok : RitualData := ⟨0, 30, 50, [("G1", 10)], 20, 20, []⟩

/-- Witness for C3 on concrete non-negative data. -/
theorem C3_conservation_witness :
    get_wallet_balance (complete_ritual c3_state c3_data_ok "P9")
      = get_wallet_balance c3_state - c3_data_ok.living_budget
        - (c3_data_ok.saving_allocations.map (fun ga => ga.2)).sum
        - c3_data_ok.backup_allocation
        - max (get_wallet_balance c3_state - c3_data_ok.living_budget
            - (c3_data_ok.saving_allocations.map (fun ga => ga.2)).sum
            - c3_data_ok.backup_allocation) 0 :=
  C3_conservation c3_state c3_data_ok "P9"
    (by simp [c3_state, c3_data_ok, get_wallet_balance, wallet_type_sum,
        WALLET_INCOME, WALLET_ALLOCATE_OUT, WALLET_TRANSFER_IN, WALLET_ADJUSTMENT]
        norm_num)
    (by norm_num [c3_data_ok])
    (by norm_num [c3_data_ok])
    (by simp [c3_data_ok])
    (by norm_num [c3_data_ok])

/-- Ritual data with a NEGATIVE saving allocation (`parse_amount("-10")`):
`L = 50`, allocations sum `S = −10`, `B = 0`, so the stored
`wallet_remaining` is `100 − 50 + 10 − 0 = 60 ≥ 0` and the commit gate is
open. -/
def c3_data_neg : RitualData := ⟨0, 30, 50, [("G1", -10)], 0, 60, []⟩

/-- Counterexample to C3 as stated: with the negative allocation the gate
conditions of the claim hold, yet the post-commit wallet balance is −10
while the claimed `W − L − S − B − r` is 0. -/
theorem C3_counterexample :
    c3_data_neg.wallet_remaining
      = get_wallet_balance c3_state - c3_data_neg.living_budget
        - (c3_data_neg.saving_allocations.map (fun ga => ga.2)).sum
        - c3_data_neg.backup_allocation ∧
    0 ≤ c3_data_neg.wallet_remaining ∧
    0 < c3_data_neg.living_budget ∧
    get_wallet_balance (complete_ritual c3_state c3_data_neg "P9") = -10 ∧
    get_wallet_balance c3_state - c3_data_neg.living_budget
      - (c3_data_neg.saving_allocations.map (fun ga => ga.2)).sum
      - c3_data_neg.backup_allocation
      - max (get_wallet_balance c3_state - c3_data_neg.living_budget
          - (c3_data_neg.saving_allocations.map (fun ga => ga.2)).sum
          - c3_data_neg.backup_allocation) 0 = 0 := by
  refine ⟨?_, ?_, ?_, ?_, ?_⟩
  · simp [c3_state, c3_data_neg, get_wallet_balance, wallet_type_sum,
      WALLET_INCOME, WALLET_ALLOCATE_OUT, WALLET_TRANSFER_IN, WALLET_ADJUSTMENT]
    norm_num
  · norm_num [c3_data_neg]
  · norm_num [c3_data_neg]
  · have hw : get_wallet_balance c3_state = 100 := by
      simp [c3_state, get_wallet_balance, wallet_type_sum, WALLET_INCOME,
        WALLET_ALLOCATE_OUT, WALLET_TRANSFER_IN, WALLET_ADJUSTMENT]
    simp only [complete_ritual]
    rw [wallet_balance_category_fold,
      if_pos (by norm_num [c3_data_neg] : (0:ℚ) < c3_data_neg.wallet_remaining),
      get_wallet_balance_add_transaction, get_wallet_balance_alloc_out,
      if_neg (by norm_num [c3_data_neg] :
        ¬ (0:ℚ) < c3_data_neg.backup_allocation),
      wallet_balance_saving_fold, get_wallet_balance_alloc_out,
      get_wallet_balance_add_period, hw]
    norm_num [c3_data_neg]
  · simp [c3_state, c3_data_neg, get_wallet_balance, wallet_type_sum,
      WALLET_INCOME, WALLET_ALLOCATE_OUT, WALLET_TRANSFER_IN, WALLET_ADJUSTMENT]
    norm_num

/-- One selectable account of the transfer dialog: the fixed rows plus one
row per Active saving goal, displayed as `"Saving: " ++ name`.  The source
dropdown offers Free Fund, Back Up and the goals; the target dropdown also
offers Wallet. -/
inductive TransferEndpoint where
  | wallet
  | freeFund
  | backUp
  | savingGoal (goal_id name : String)
deriving DecidableEq

/-- The display label the dialog's same-account check compares
(`selected_source == selected_target`). -/
def endpoint_label : TransferEndpoint → String
  | TransferEndpoint.wallet => "Wallet"
  | TransferEndpoint.freeFund => "Free Fund"
  | TransferEndpoint.backUp => "Back Up"
  | TransferEndpoint.savingGoal _ name => "Saving: " ++ name

/-- The `account` field stored for an endpoint. -/
def endpoint_account : TransferEndpoint → String
  | TransferEndpoint.wallet => ACCOUNT_WALLET
  | TransferEndpoint.freeFund => ACCOUNT_FREEFUND
  | TransferEndpoint.backUp => ACCOUNT_BACKUP
  | TransferEndpoint.savingGoal _ _ => ACCOUNT_SAVING

/-- The `goal_id` stored for an endpoint (empty for non-goal rows). -/
def endpoint_goal_id : TransferEndpoint → String
  | TransferEndpoint.savingGoal gid _ => gid
  | _ => ""

/-- The displayed source name used in the wallet-log note of a
transfer-to-wallet. -/
def endpoint_source_name : TransferEndpoint → String
  | TransferEndpoint.wallet => "Wallet"
  | TransferEndpoint.freeFund => "Free Fund"
  | TransferEndpoint.backUp => "Back Up"
  | TransferEndpoint.savingGoal _ name => "Saving (" ++ name ++ ")"

/-- The balance the dialog shows and validates against, per selected source
(the `else` branch of the source chain sets 0). -/
def transfer_source_balance (s : State) : TransferEndpoint → ℚ
  | TransferEndpoint.freeFund => get_free_fund_balance s
  | TransferEndpoint.backUp => get_backup_balance s
  | TransferEndpoint.savingGoal gid _ => get_saving_balance s gid
  | TransferEndpoint.wallet => 0

/-- The confirm branch of `dialog_transfer` (`src/app.py` lines 2068-2133):
reject non-positive amounts, identical display labels, or amounts above the
source balance; otherwise append one `Transfer` row (plus a Wallet_Log
`Transfer_In` when the target is the Wallet), with
`goal_id = source_goal_id or target_goal_id`. -/
def dialog_transfer_submit (s : State) (source target : TransferEndpoint)
    (amount : ℚ) (note : String) : State :=
  if amount ≤ 0 then s
  else if endpoint_label source == endpoint_label target then s
  else if transfer_source_balance s source < amount then s
  else if endpoint_account target == ACCOUNT_WALLET then
    add_wallet_log
      (add_transaction s TYPE_TRANSFER amount (endpoint_account source)
        "" "" "" (if note ≠ "" then note else "轉帳至錢包")
        (endpoint_goal_id source) ACCOUNT_WALLET "" "" "" "")
      WALLET_TRANSFER_IN amount ""
      ("從 " ++ endpoint_source_name source ++ " 轉入") ""
  else
    add_transaction s TYPE_TRANSFER amount (endpoint_account source)
      "" "" "" (if note ≠ "" then note else "轉帳")
      (if endpoint_goal_id source ≠ "" then endpoint_goal_id source
       else endpoint_goal_id target)
      (endpoint_account target) "" "" "" ""

/-- The quick transfer-to-wallet expander of Stage 4
(`src/app.py` lines 1642-1672): source is Free Fund or Back Up, target the
Wallet; positive amounts only. -/
def ritual_step4_transfer (s : State) (source_is_free_fund : Bool)
    (amount : ℚ) : State :=
  if amount ≤ 0 then s
  else
    add_wallet_log
      (add_transaction s TYPE_TRANSFER amount
        (if source_is_free_fund then ACCOUNT_FREEFUND else ACCOUNT_BACKUP)
        "" "" "" "週期儀式轉帳" "" ACCOUNT_WALLET "" "" "" "")
      WALLET_TRANSFER_IN amount ""
      ("從 " ++ (if source_is_free_fund then "Free Fund" else "Back Up")
        ++ " 轉入") ""

/-- The submit branch of `quick_expense_dialog`: positive amount and an
Active period required; appends one `Expense` row on account Living. -/
def quick_expense_submit (s : State) (category_id sub_tag_id : String)
    (amount : ℚ) (item note bank_id payment_method : String) : State :=
  if amount ≤ 0 then s
  else
    match get_active_period s with
    | none => s
    | some period =>
      add_transaction s TYPE_EXPENSE amount ACCOUNT_LIVING category_id
        sub_tag_id item note "" "" "" period.period_id bank_id payment_method

/-- The submit branch of `dialog_saving_deposit`: positive amount required;
appends one `Saving_In` row (empty note defaults to the deposit label). -/
def dialog_saving_deposit_submit (s : State) (goal_id : String) (amount : ℚ)
    (note : String) : State :=
  if amount ≤ 0 then s
  else
    add_transaction s TYPE_SAVING_IN amount ACCOUNT_SAVING "" "" ""
      (if note ≠ "" then note else "存入") goal_id "" "" "" "" ""

/-- The submit branch of `dialog_saving_withdraw`: category, positive amount
and a non-empty item required; appends one `Saving_Out` row. -/
def dialog_saving_withdraw_submit (s : State) (goal_id category_id : String)
    (amount : ℚ) (item note bank_id payment_method : String) : State :=
  if category_id == "" then s
  else if amount ≤ 0 then s
  else if item == "" then s
  else
    add_transaction s TYPE_SAVING_OUT amount ACCOUNT_SAVING category_id ""
      item note goal_id "" "" "" bank_id payment_method

/-- The confirm branch of `dialog_complete_goal`: requires
`0 < amount ≤ current balance`; appends a `Settlement_In` of the positive
difference and a `Saving_Out` of the actual expense.  (The Saving_Goal
status flip touches a sheet no derivation reads and is not modelled.) -/
def dialog_complete_goal_submit (s : State) (goal_id goal_name : String)
    (amount : ℚ) (note : String) : State :=
  let current_balance := get_saving_balance s goal_id
  let difference := current_balance - amount
  if amount ≤ 0 then s
  else if current_balance < amount then s
  else
    let s1 :=
      if 0 < difference then
        add_transaction s TYPE_SETTLEMENT_IN difference ACCOUNT_FREEFUND
          "" "" "" ("目標完成差額：" ++ goal_name) goal_id ""
          ("Goal_Complete_" ++ goal_id) "" "" ""
      else s
    add_transaction s1 TYPE_SAVING_OUT amount ACCOUNT_SAVING "" ""
      ("目標完成：" ++ goal_name) note goal_id ""
      ("Goal_Complete_" ++ goal_id) "" "" ""

/-- The settlement-in type is not the transfer type. -/
theorem settlement_in_ne_transfer : TYPE_SETTLEMENT_IN ≠ TYPE_TRANSFER := by
  decide

/-- The settlement-out type is not the transfer type. -/
theorem settlement_out_ne_transfer : TYPE_SETTLEMENT_OUT ≠ TYPE_TRANSFER := by
  decide

/-- The saving-in type is not the transfer type. -/
theorem saving_in_ne_transfer : TYPE_SAVING_IN ≠ TYPE_TRANSFER := by decide

/-- The saving-out type is not the transfer type. -/
theorem saving_out_ne_transfer : TYPE_SAVING_OUT ≠ TYPE_TRANSFER := by decide

/-- The expense type is not the transfer type. -/
theorem expense_ne_transfer : TYPE_EXPENSE ≠ TYPE_TRANSFER := by decide

/-- Wallet and Back_Up are different accounts. -/
theorem wallet_ne_backup : ACCOUNT_WALLET ≠ ACCOUNT_BACKUP := by decide

/-- A transaction of the post-state either pre-existed or is a
well-formed append: positive amount, and a `Transfer` only between distinct
accounts. -/
def appended_ok (s : State) (t : Txn) : Prop :=
  t ∈ s.transactions ∨
    (0 < t.amount ∧
      (t.txn_type = TYPE_TRANSFER → t.account ≠ t.target_account))

/-- Every ledger entry `settle_period` appends has a positive amount and is
not a `Transfer`. -/
theorem settle_period_appends_ok (s : State) (pid sid now : String) :
    ∀ t ∈ (settle_period no_store_faults s pid sid now).2.transactions,
      appended_ok s t := by
  intro t ht
  simp only [settle_period] at ht
  cases hgp : get_period_by_id s pid with
  | none => rw [hgp] at ht; exact Or.inl ht
  | some p =>
    rw [hgp] at ht
    by_cases hs : (p.status == PERIOD_SETTLED) = true
    · simp only [hs, if_true] at ht
      exact Or.inl ht
    · simp only [hs, Bool.false_eq_true, if_false, no_store_faults] at ht
      split_ifs at ht with h1 h2 <;>
        simp only [update_period_status_transactions, add_transaction,
          List.mem_append, List.mem_singleton] at ht
      · rcases ht with ht | rfl
        · exact Or.inl ht
        · exact Or.inr ⟨h1, fun h => absurd h settlement_in_ne_transfer⟩
      · rcases ht with ht | rfl
        · exact Or.inl ht
        · exact Or.inr ⟨abs_pos.mpr (ne_of_lt h2),
            fun h => absurd h settlement_out_ne_transfer⟩
      · exact Or.inl ht

/-- The saving-allocation loop appends only positive `Saving_In` rows. -/
theorem saving_fold_appends_ok (pid : String) (l : List (String × ℚ))
    (s : State) :
    ∀ t ∈ (l.foldl (ritual_saving_step pid) s).transactions,
      t ∈ s.transactions ∨ (0 < t.amount ∧ t.txn_type = TYPE_SAVING_IN) := by
  induction l generalizing s with
  | nil => intro t ht; exact Or.inl ht
  | cons ga rest ih =>
    intro t ht
    rcases ih (ritual_saving_step pid s ga) t ht with h | h
    · by_cases hpos : 0 < ga.2
      · simp only [ritual_saving_step, if_pos hpos, add_transaction,
          add_wallet_log, List.mem_append, List.mem_singleton] at h
        rcases h with h | rfl
        · exact Or.inl h
        · exact Or.inr ⟨hpos, rfl⟩
      · simp only [ritual_saving_step, if_neg hpos] at h
        exact Or.inl h
    · exact Or.inr h

/-- The category-budget loop leaves the ledger untouched. -/
theorem category_fold_transactions (l : List (String × ℚ)) (s : State) :
    (l.foldl (fun st cb => update_category st cb.1 cb.2) s).transactions
      = s.transactions := by
  induction l generalizing s with
  | nil => rfl
  | cons cb rest ih =>
    rw [List.foldl_cons, ih]
    rfl

/-- Every ledger entry a Rollover commit appends has a positive amount, and
its only `Transfer` is Wallet → Back_Up. -/
theorem complete_ritual_appends_ok (s : State) (d : RitualData)
    (pid : String) :
    ∀ t ∈ (complete_ritual s d pid).transactions, appended_ok s t := by
  intro t ht
  simp only [complete_ritual, category_fold_transactions] at ht
  by_cases hr : 0 < d.wallet_remaining <;>
    by_cases hb : 0 < d.backup_allocation <;>
    simp only [hr, hb, if_true, if_false, add_transaction, add_wallet_log,
      List.mem_append, List.mem_singleton] at ht
  · rcases ht with (ht | rfl) | rfl
    · rcases saving_fold_appends_ok pid d.saving_allocations _ t ht with h | h
      · exact Or.inl h
      · exact Or.inr ⟨h.1, fun hx => absurd (h.2 ▸ hx) saving_in_ne_transfer⟩
    · exact Or.inr ⟨hb, fun _ => wallet_ne_backup⟩
    · exact Or.inr ⟨hr, fun h => absurd h settlement_in_ne_transfer⟩
  · rcases ht with ht | rfl
    · rcases saving_fold_appends_ok pid d.saving_allocations _ t ht with h | h
      · exact Or.inl h
      · exact Or.inr ⟨h.1, fun hx => absurd (h.2 ▸ hx) saving_in_ne_transfer⟩
    · exact Or.inr ⟨hr, fun h => absurd h settlement_in_ne_transfer⟩
  · rcases ht with ht | rfl
    · rcases saving_fold_appends_ok pid d.saving_allocations _ t ht with h | h
      · exact Or.inl h
      · exact Or.inr ⟨h.1, fun hx => absurd (h.2 ▸ hx) saving_in_ne_transfer⟩
    · exact Or.inr ⟨hb, fun _ => wallet_ne_backup⟩
  · rcases saving_fold_appends_ok pid d.saving_allocations _ t ht with h | h
    · exact Or.inl h
    · exact Or.inr ⟨h.1, fun hx => absurd (h.2 ▸ hx) saving_in_ne_transfer⟩

/-- Free_Fund is not the Wallet account. -/
theorem freefund_ne_wallet : ACCOUNT_FREEFUND ≠ ACCOUNT_WALLET := by decide

/-- Back_Up is not the Wallet account. -/
theorem backup_ne_wallet : ACCOUNT_BACKUP ≠ ACCOUNT_WALLET := by decide

/-- Every ledger entry the transfer dialog appends has a positive amount,
and its `Transfer` joins distinct accounts — except when both selected
endpoints are Saving goals, where both sides are the Saving account. -/
theorem dialog_transfer_appends_ok (s : State)
    (source target : TransferEndpoint) (amount : ℚ) (note : String) :
    ∀ t ∈ (dialog_transfer_submit s source target amount note).transactions,
      t ∈ s.transactions ∨
        (0 < t.amount ∧ (t.txn_type = TYPE_TRANSFER →
          (t.account ≠ t.target_account ∨
            (endpoint_account source = ACCOUNT_SAVING ∧
             endpoint_account target = ACCOUNT_SAVING ∧
             t.account = ACCOUNT_SAVING ∧
             t.target_account = ACCOUNT_SAVING)))) := by
  intro t ht
  simp only [dialog_transfer_submit] at ht
  split_ifs at ht <;>
    (try simp only [add_wallet_log, add_transaction, List.mem_append,
      List.mem_singleton] at ht) <;>
    first
      | exact Or.inl ht
      | (rcases ht with ht | rfl
         · exact Or.inl ht
         · refine Or.inr ⟨not_le.mp ‹¬ amount ≤ 0›, fun _ => ?_⟩
           cases source <;> cases target <;>
             simp_all [endpoint_label, endpoint_account, endpoint_goal_id,
               transfer_source_balance, ACCOUNT_WALLET, ACCOUNT_FREEFUND,
               ACCOUNT_BACKUP, ACCOUNT_SAVING])

/-- Every ledger entry the Stage-4 quick transfer appends has a positive
amount and transfers Free_Fund/Back_Up → Wallet, never to itself. -/
theorem ritual_step4_transfer_appends_ok (s : State)
    (source_is_free_fund : Bool) (amount : ℚ) :
    ∀ t ∈ (ritual_step4_transfer s source_is_free_fund amount).transactions,
      appended_ok s t := by
  intro t ht
  simp only [ritual_step4_transfer] at ht
  split_ifs at ht with h1 h2 <;>
    (try simp only [add_wallet_log, add_transaction, List.mem_append,
      List.mem_singleton] at ht)
  · exact Or.inl ht
  · rcases ht with ht | rfl
    · exact Or.inl ht
    · exact Or.inr ⟨not_le.mp h1, fun _ => freefund_ne_wallet⟩
  · rcases ht with ht | rfl
    · exact Or.inl ht
    · exact Or.inr ⟨not_le.mp h1, fun _ => backup_ne_wallet⟩

/-- Every ledger entry the quick-expense dialog appends has a positive
amount and is an `Expense`, not a `Transfer`. -/
theorem quick_expense_appends_ok (s : State) (category_id sub_tag_id : String)
    (amount : ℚ) (item note bank_id payment_method : String) :
    ∀ t ∈ (quick_expense_submit s category_id sub_tag_id amount item note
        bank_id payment_method).transactions,
      appended_ok s t := by
  intro t ht
  simp only [quick_expense_submit] at ht
  split_ifs at ht with h1
  · exact Or.inl ht
  · cases hact : get_active_period s with
    | none => rw [hact] at ht; exact Or.inl ht
    | some period =>
      rw [hact] at ht
      simp only [add_transaction, List.mem_append, List.mem_singleton] at ht
      rcases ht with ht | rfl
      · exact Or.inl ht
      · exact Or.inr ⟨not_le.mp h1, fun h => absurd h expense_ne_transfer⟩

/-- Every ledger entry the saving-deposit dialog appends has a positive
amount and is a `Saving_In`. -/
theorem saving_deposit_appends_ok (s : State) (goal_id : String) (amount : ℚ)
    (note : String) :
    ∀ t ∈ (dialog_saving_deposit_submit s goal_id amount note).transactions,
      appended_ok s t := by
  intro t ht
  simp only [dialog_saving_deposit_submit] at ht
  split_ifs at ht with h1 h2 <;>
    (try simp only [add_transaction, List.mem_append, List.mem_singleton] at ht)
  · exact Or.inl ht
  · rcases ht with ht | rfl
    · exact Or.inl ht
    · exact Or.inr ⟨not_le.mp h1, fun h => absurd h saving_in_ne_transfer⟩
  · rcases ht with ht | rfl
    · exact Or.inl ht
    · exact Or.inr ⟨not_le.mp h1, fun h => absurd h saving_in_ne_transfer⟩

/-- Every ledger entry the saving-withdraw dialog appends has a positive
amount and is a `Saving_Out`. -/
theorem saving_withdraw_appends_ok (s : State) (goal_id category_id : String)
    (amount : ℚ) (item note bank_id payment_method : String) :
    ∀ t ∈ (dialog_saving_withdraw_submit s goal_id category_id amount item
        note bank_id payment_method).transactions,
      appended_ok s t := by
  intro t ht
  simp only [dialog_saving_withdraw_submit] at ht
  split_ifs at ht with h1 h2 h3
  · exact Or.inl ht
  · exact Or.inl ht
  · exact Or.inl ht
  · simp only [add_transaction, List.mem_append, List.mem_singleton] at ht
    rcases ht with ht | rfl
    · exact Or.inl ht
    · exact Or.inr ⟨not_le.mp h2, fun h => absurd h saving_out_ne_transfer⟩

/-- Every ledger entry the complete-goal dialog appends has a positive
amount (`Settlement_In` of a positive difference, `Saving_Out` of the
positive actual expense). -/
theorem complete_goal_appends_ok (s : State) (goal_id goal_name : String)
    (amount : ℚ) (note : String) :
    ∀ t ∈ (dialog_complete_goal_submit s goal_id goal_name amount
        note).transactions,
      appended_ok s t := by
  intro t ht
  simp only [dialog_complete_goal_submit] at ht
  split_ifs at ht with h1 h2 h3 <;>
    (try simp only [add_transaction, List.mem_append, List.mem_singleton] at ht)
  · exact Or.inl ht
  · exact Or.inl ht
  · rcases ht with (ht | rfl) | rfl
    · exact Or.inl ht
    · exact Or.inr ⟨h3, fun h => absurd h settlement_in_ne_transfer⟩
    · exact Or.inr ⟨not_le.mp h1, fun h => absurd h saving_out_ne_transfer⟩
  · rcases ht with ht | rfl
    · exact Or.inl ht
    · exact Or.inr ⟨not_le.mp h1, fun h => absurd h saving_out_ne_transfer⟩

/-- C5 (amended): across every ledger-writing operation of the system —
settlement, rollover commit, Stage-4 quick transfer, the transfer dialog,
quick expense, saving deposit/withdraw and goal completion — every appended
entry has `amount > 0`, and every appended `Transfer` joins two distinct
accounts EXCEPT a transfer-dialog transfer between two distinct Saving
goals, which passes the label check yet stores
`account = target_account = Saving`. -/
theorem C5_ledger_entry_invariants :
    (∀ (s : State) (pid sid now : String),
      ∀ t ∈ (settle_period no_store_faults s pid sid now).2.transactions,
        appended_ok s t) ∧
    (∀ (s : State) (d : RitualData) (pid : String),
      ∀ t ∈ (complete_ritual s d pid).transactions, appended_ok s t) ∧
    (∀ (s : State) (b : Bool) (amount : ℚ),
      ∀ t ∈ (ritual_step4_transfer s b amount).transactions,
        appended_ok s t) ∧
    (∀ (s : State) (cid stid : String) (amount : ℚ) (item note bid pm : String),
      ∀ t ∈ (quick_expense_submit s cid stid amount item note
          bid pm).transactions,
        appended_ok s t) ∧
    (∀ (s : State) (gid : String) (amount : ℚ) (note : String),
      ∀ t ∈ (dialog_saving_deposit_submit s gid amount note).transactions,
        appended_ok s t) ∧
    (∀ (s : State) (gid cid : String) (amount : ℚ) (item note bid pm : String),
      ∀ t ∈ (dialog_saving_withdraw_submit s gid cid amount item note
          bid pm).transactions,
        appended_ok s t) ∧
    (∀ (s : State) (gid gname : String) (amount : ℚ) (note : String),
      ∀ t ∈ (dialog_complete_goal_submit s gid gname amount
          note).transactions,
        appended_ok s t) ∧
    (∀ (s : State) (source target : TransferEndpoint) (amount : ℚ)
        (note : String),
      ∀ t ∈ (dialog_transfer_submit s source target amount note).transactions,
        t ∈ s.transactions ∨
          (0 < t.amount ∧ (t.txn_type = TYPE_TRANSFER →
            (t.account ≠ t.target_account ∨
              (endpoint_account source = ACCOUNT_SAVING ∧
               endpoint_account target = ACCOUNT_SAVING ∧
               t.account = ACCOUNT_SAVING ∧
               t.target_account = ACCOUNT_SAVING))))) :=
  ⟨settle_period_appends_ok, complete_ritual_appends_ok,
   ritual_step4_transfer_appends_ok, quick_expense_appends_ok,
   saving_deposit_appends_ok, saving_withdraw_appends_ok,
   complete_goal_appends_ok, dialog_transfer_appends_ok⟩

/-- The entry a Saving→Saving transfer writes: account and target account
are both `Saving`. -/
def c5_bad_entry : Txn :=
  ⟨TYPE_TRANSFER, 10, ACCOUNT_SAVING, "", "", "G1", ACCOUNT_SAVING, "",
   "轉帳", "", "", "", ""⟩

/-- State with 100 saved in goal `G1`. -/
def c5_state : State :=
  ⟨[], [⟨"Saving_In", 100, "Saving", "", "", "G1", "", "", "", "", "", "", ""⟩],
   [], [], [], ⟨0, 0⟩⟩

/-- Witness for C5: the deposit that funded `c5_state`'s goal is a
well-formed append on the empty ledger. -/
theorem C5_ledger_entry_invariants_witness :
    appended_ok ⟨[], [], [], [], [], ⟨0, 0⟩⟩
      ⟨"Saving_In", 10, "Saving", "", "", "G1", "", "", "存入", "", "", "", ""⟩ :=
  C5_ledger_entry_invariants.2.2.2.2.1 ⟨[], [], [], [], [], ⟨0, 0⟩⟩ "G1" 10 ""
    ⟨"Saving_In", 10, "Saving", "", "", "G1", "", "", "存入", "", "", "", ""⟩
    (by norm_num [dialog_saving_deposit_submit, add_transaction,
      TYPE_SAVING_IN, ACCOUNT_SAVING])

/-- Counterexample to C5 as stated: transferring 10 from Saving goal `G1`
(balance 100) to the distinct Saving goal `G2` is accepted by the dialog,
yet the appended `Transfer` has `account = target_account = Saving`. -/
theorem C5_counterexample :
    (dialog_transfer_submit c5_state (TransferEndpoint.savingGoal "G1" "A")
        (TransferEndpoint.savingGoal "G2" "B") 10 "").transactions
      = c5_state.transactions ++ [c5_bad_entry] ∧
    c5_bad_entry.txn_type = TYPE_TRANSFER ∧
    c5_bad_entry.account = c5_bad_entry.target_account := by
  have hbal : transfer_source_balance c5_state
      (TransferEndpoint.savingGoal "G1" "A") = 100 := by
    simp [transfer_source_balance, get_saving_balance, txn_sum, c5_state,
      TYPE_SAVING_IN, TYPE_SAVING_OUT, TYPE_TRANSFER, ACCOUNT_SAVING]
  refine ⟨?_, rfl, rfl⟩
  rw [dialog_transfer_submit, hbal,
    if_neg (by norm_num),
    if_neg (by simp [endpoint_label]),
    if_neg (by norm_num),
    if_neg (by simp [endpoint_account, ACCOUNT_SAVING, ACCOUNT_WALLET])]
  simp [add_transaction, endpoint_account, endpoint_goal_id, c5_bad_entry,
    TYPE_TRANSFER, ACCOUNT_SAVING]

/-- Stage 3 of the Rollover wizard (`render_ritual_step3`,
`src/app.py` lines 1512-1619), reduced to its exit decision toward Stage 4:
when no Active category exists (or there are no categories at all) a skip
button proceeds with `living_budget = 0`; otherwise the collected per-active-
category budgets are summed and the next button is enabled iff the sum is
strictly positive, storing the sum as `living_budget`.  Returns
(can proceed to Stage 4, stored living_budget). -/
def ritual_step3_outcome (cats : List Category) (entered : String → ℚ) :
    Bool × ℚ :=
  let active := cats.filter (fun c => c.status == "Active")
  if active.isEmpty then (true, 0)
  else
    let total := (active.map (fun c => entered c.category_id)).sum
    (decide (0 < total), total)

/-- C9 (amended): when at least one Active category exists, Stage 3 lets the
wizard proceed to Stage 4 exactly when the collected sum is strictly
positive, and stores that sum as `living_budget`; but when no Active
category exists, a skip path proceeds to Stage 4 with `living_budget = 0`. -/
theorem C9_step3_gate (cats : List Category) (entered : String → ℚ) :
    (cats.filter (fun c => c.status == "Active") ≠ [] →
      ((ritual_step3_outcome cats entered).1 = true ↔
        0 < ((cats.filter (fun c => c.status == "Active")).map
          (fun c => entered c.category_id)).sum) ∧
      (ritual_step3_outcome cats entered).2
        = ((cats.filter (fun c => c.status == "Active")).map
            (fun c => entered c.category_id)).sum) ∧
    (cats.filter (fun c => c.status == "Active") = [] →
      ritual_step3_outcome cats entered = (true, 0)) := by
  constructor
  · intro h
    have hne : (cats.filter (fun c => c.status == "Active")).isEmpty = false := by
      simpa [List.isEmpty_iff] using h
    simp [ritual_step3_outcome, hne]
  · intro h
    simp [ritual_step3_outcome, h]

/-- Category list with one Active row, for the C9 witness. -/
def c9_cats : List Category := [⟨"C01", "Food", 0, "Active"⟩]

/-- Witness for C9: with one Active category and an entered budget of 5,
Stage 3 proceeds and stores 5. -/
theorem C9_step3_gate_witness :
    (ritual_step3_outcome c9_cats (fun _ => 5)).1 = true ∧
    (ritual_step3_outcome c9_cats (fun _ => 5)).2
      = ((c9_cats.filter (fun c => c.status == "Active")).map
          (fun c => (fun _ => (5 : ℚ)) c.category_id)).sum := by
  have h := (C9_step3_gate c9_cats (fun _ => 5)).1 (by decide)
  exact ⟨h.1.mpr (by norm_num [c9_cats]), h.2⟩

/-- Counterexample to C9 as stated: with no categories at all the collected
sum is 0, yet Stage 3's skip path proceeds to Stage 4 storing
`living_budget = 0`, which is not strictly positive. -/
theorem C9_counterexample :
    (ritual_step3_outcome [] (fun _ => 0)).1 = true ∧
    (ritual_step3_outcome [] (fun _ => 0)).2 = 0 ∧
    ((([] : List Category).filter (fun c => c.status == "Active")).map
      (fun c => (fun _ => (0 : ℚ)) c.category_id)).sum = 0 :=
  ⟨rfl, rfl, rfl⟩

/-- C10 (amended): `settle_period` always returns the four-field result dict
(totality is by construction of the embedding); a missing period, an
already-settled period, and a store error raised in `settle_period`'s own
body (the Settlement_Log append) are mapped to `success = false` with
`net_result = 0` and an empty `settlement_id` — but store errors inside
`add_transaction` / `update_period_status` are swallowed by those helpers
and the call still reports success. -/
theorem C10_settle_total (faults : StoreFaults) (s : State)
    (pid sid now : String) :
    ((settle_period faults s pid sid now).1.success = false →
      (settle_period faults s pid sid now).1.net_result = 0 ∧
      (settle_period faults s pid sid now).1.settlement_id = "") ∧
    (get_period_by_id s pid = none →
      (settle_period faults s pid sid now).1 = ⟨false, 0, "", "找不到週期"⟩) ∧
    (∀ p, get_period_by_id s pid = some p → p.status = PERIOD_SETTLED →
      (settle_period faults s pid sid now).1 = ⟨false, 0, "", "此週期已結算"⟩) ∧
    (faults.settlement_append_fails = true →
      (settle_period faults s pid sid now).1.success = false) := by
  refine ⟨?_, ?_, ?_, ?_⟩
  · intro hf
    simp only [settle_period] at hf ⊢
    cases hgp : get_period_by_id s pid with
    | none => exact ⟨rfl, rfl⟩
    | some p =>
      rw [hgp] at hf
      by_cases hs : (p.status == PERIOD_SETTLED) = true
      · simp [hs]
      · simp only [hs, Bool.false_eq_true, if_false] at hf ⊢
        by_cases hfa : faults.settlement_append_fails = true
        · simp [hfa]
        · simp [hfa] at hf
  · intro h
    simp [settle_period, h]
  · intro p hp hst
    have hb : (p.status == PERIOD_SETTLED) = true := by rw [hst]; decide
    simp [settle_period, hp, hb]
  · intro hfa
    simp only [settle_period]
    cases hgp : get_period_by_id s pid with
    | none => rfl
    | some p =>
      by_cases hs : (p.status == PERIOD_SETTLED) = true
      · simp [hs]
      · simp [hs, hfa]

/-- Witness for C10: settling a period id that does not exist in the empty
spreadsheet returns the not-found failure dict. -/
theorem C10_settle_total_witness :
    (settle_period no_store_faults ⟨[], [], [], [], [], ⟨0, 0⟩⟩
        "PX" "S1" "t1").1 = ⟨false, 0, "", "找不到週期"⟩ :=
  (C10_settle_total no_store_faults ⟨[], [], [], [], [], ⟨0, 0⟩⟩
    "PX" "S1" "t1").2.1 (by decide)

/-- Store faults where only the compensating `add_transaction` fails. -/
def c10_faults : StoreFaults := ⟨true, false, false⟩

/-- Counterexample to C10 as stated: when the compensating-entry store write
fails (`add_transaction` catches the exception and returns `False`, which
`settle_period` ignores), the call still reports `success = true`, and no
compensating ledger entry was written. -/
theorem C10_counterexample :
    (settle_period c10_faults sample_state_1 "P1" "S1" "t1").1.success
      = true ∧
    (settle_period c10_faults sample_state_1 "P1" "S1" "t1").2.transactions
      = sample_state_1.transactions := by
  have hp : get_period_by_id sample_state_1 "P1" = some sample_period_1 := by
    decide
  have hst : (sample_period_1.status == PERIOD_SETTLED) = false := by decide
  have hnet : (0 : ℚ)
      < sample_period_1.living_budget - total_living_expense sample_state_1 "P1" := by
    simp [sample_period_1, total_living_expense, sample_state_1, TYPE_EXPENSE,
      ACCOUNT_LIVING]
    norm_num
  simp [settle_period, hp, hst, hnet, c10_faults, update_period_status]

end BudgetLevel
